import Mathlib

/-!
Shallow embedding of the metaprior algebra and MAP-optimization engine of the
`catede` repository (files `src/catede/new_calculus.py` and
`src/kamapack/new_calculus.py`).  Floating-point scalars are modelled by `ℚ`;
the external special-function / numerical library (log-gamma and its
derivatives, `np.log`, `np.exp`, `np.power`, `np.log10`, `10**`) is a
pre-existing collaborator and is modelled as a structure of abstract function
fields, so that every definition below is a faithful, executable transcription
of the Python source.
-/

/-- The external numerical library consumed by `new_calculus.py`:
log-gamma (`LogGmm`), its derivatives digamma (`diGmm`), trigamma (`triGmm`),
quadrigamma (`quadriGmm`), quintigamma (`quintiGmm`), plus `np.log`, `np.exp`,
`np.power`, `np.log10` and the base-10 power used by `np.logspace`. -/
structure NumLib where
  LogGmm : ℚ → ℚ
  diGmm : ℚ → ℚ
  triGmm : ℚ → ℚ
  quadriGmm : ℚ → ℚ
  quintiGmm : ℚ → ℚ
  log : ℚ → ℚ
  exp : ℚ → ℚ
  npPower : ℚ → ℚ → ℚ
  log10 : ℚ → ℚ
  pow10 : ℚ → ℚ

/-- Modelled from the spec: the helper `D_diGmm(x,y) = digamma(x) - digamma(y)`
of `beta_func_multivar.py` (a repository file not present under `src/`). -/
def D_diGmm (sf : NumLib) (x y : ℚ) : ℚ := sf.diGmm x - sf.diGmm y

/-- Modelled from the spec: the `CompactCounts` data model (external collaborator,
consumed read-only): `K` categories, total size `N`, the distinct observed count
values `nn` and their multiplicities `ff` (parallel sequences). -/
structure CompactCounts where
  K : ℚ
  N : ℚ
  nn : List ℚ
  ff : List ℚ

/-- Modelled from the spec: the `CompactCounts` reduction `_ffsum`
("ff-weighted sum"): apply a per-count function to `nn` and contract with `ff`. -/
def ffsum (f : ℚ → ℚ) : List ℚ → List ℚ → ℚ
  | n :: ns, fr :: frs => fr * f n + ffsum f ns frs
  | _, _ => 0

-- Numerical constants of `new_calculus.py`.

def N_SIGMA : ℚ := 3/2

def TOL : ℚ := 1 / 10 ^ 14

def BOUND_lo : ℚ := 1 / 10 ^ 5

def BOUND_hi : ℚ := 10 ^ 3

def CUTOFFRATIO : ℚ := 5

def NUMERICAL_ZERO : ℚ := 1 / 10 ^ 14

def NUMERICAL_INFTY : ℚ := 10 ^ 12

/-- numpy's default relative tolerance in `np.isclose` (`rtol = 1e-05`),
which `myMinimizer` leaves at its default. -/
def NP_RTOL : ℚ := 1 / 10 ^ 5

-- `class BetaMultivariate_symmDir`: with `x = a` and `X = K * a`.

/-- `BetaMultivariate_symmDir.log`: `K * LogGmm(x) - LogGmm(X)`. -/
def BetaMultivariate_symmDir_log (sf : NumLib) (a K : ℚ) : ℚ :=
  K * sf.LogGmm a - sf.LogGmm (K * a)

/-- `BetaMultivariate_symmDir.log_jac`: `K * diGmm(x) - K * diGmm(X)`. -/
def BetaMultivariate_symmDir_log_jac (sf : NumLib) (a K : ℚ) : ℚ :=
  K * sf.diGmm a - K * sf.diGmm (K * a)

/-- `BetaMultivariate_symmDir.log_hess`: `K * triGmm(x) - K^2 * triGmm(X)`. -/
def BetaMultivariate_symmDir_log_hess (sf : NumLib) (a K : ℚ) : ℚ :=
  K * sf.triGmm a - K ^ 2 * sf.triGmm (K * a)

/-- `Polya.log`: `_ffsum(LogGmm(nn + a)) - LogGmm(N + K*a)
- BetaMultivariate_symmDir(a, K).log()`. -/
def Polya_log (sf : NumLib) (a : ℚ) (c : CompactCounts) : ℚ :=
  ffsum (fun x => sf.LogGmm x) (c.nn.map (fun n => n + a)) c.ff
    - sf.LogGmm (c.N + c.K * a)
    - BetaMultivariate_symmDir_log sf a c.K

-- `class _one_dim_metapr` and its four concrete variants.  Each variant
-- supplies the four primitives; the `logMetapr*` methods are inherited from
-- the base class, i.e. derived generically from the primitives.

/-- A one-dimensional metaprior: the four primitives a concrete variant
supplies to the base class `_one_dim_metapr`. -/
structure OneDimMetapr where
  aPrioriExpec : ℚ → ℚ
  Metapr : ℚ → ℚ
  Metapr_jac : ℚ → ℚ
  Metapr_hess : ℚ → ℚ

/-- `_one_dim_metapr.logMetapr`: `np.log(self.Metapr())`. -/
def logMetapr (sf : NumLib) (v : OneDimMetapr) (a : ℚ) : ℚ :=
  sf.log (v.Metapr a)

/-- `_one_dim_metapr.logMetapr_jac`: `self.Metapr_jac() / self.Metapr()`. -/
def logMetapr_jac (v : OneDimMetapr) (a : ℚ) : ℚ :=
  v.Metapr_jac a / v.Metapr a

/-- `_one_dim_metapr.logMetapr_hess`:
`self.Metapr_hess() / self.Metapr() - self.logMetapr_jac()**2`. -/
def logMetapr_hess (v : OneDimMetapr) (a : ℚ) : ℚ :=
  v.Metapr_hess a / v.Metapr a - (logMetapr_jac v a) ^ 2

/-- `class DirEntr` (entropy metaprior). -/
def DirEntr (sf : NumLib) (K : ℚ) : OneDimMetapr where
  aPrioriExpec := fun a => D_diGmm sf (K * a + 1) (a + 1)
  Metapr := fun a => K * sf.triGmm (K * a + 1) - sf.triGmm (a + 1)
  Metapr_jac := fun a => K ^ 2 * sf.quadriGmm (K * a + 1) - sf.quadriGmm (a + 1)
  Metapr_hess := fun a => K ^ 3 * sf.quintiGmm (K * a + 1) - sf.quintiGmm (a + 1)

/-- `class DirSimps` (Simpson-index metaprior, catede only). -/
def DirSimps (K : ℚ) : OneDimMetapr where
  aPrioriExpec := fun a => (K - 1) * (K * a + 1) ^ (-2 : ℤ)
  Metapr := fun a => 2 * K * (K - 1) * (K * a + 1) ^ (-3 : ℤ)
  Metapr_jac := fun a => -6 * K ^ 2 * (K - 1) * (K * a + 1) ^ (-4 : ℤ)
  Metapr_hess := fun a => 24 * K ^ 3 * (K - 1) * (K * a + 1) ^ (-5 : ℤ)

/-- `class equalDirKLdiv` (equal-prior symmetric KL metaprior),
with `_const = (K - 1) / K`. -/
def equalDirKLdiv (K : ℚ) : OneDimMetapr where
  aPrioriExpec := fun a => (K - 1) / K * a ^ (-1 : ℤ)
  Metapr := fun a => (K - 1) / K * a ^ (-2 : ℤ)
  Metapr_jac := fun a => -2 * ((K - 1) / K) * a ^ (-3 : ℤ)
  Metapr_hess := fun a => 6 * ((K - 1) / K) * a ^ (-4 : ℤ)

/-- `class DirCrossEntr` (cross-entropy metaprior). -/
def DirCrossEntr (sf : NumLib) (K : ℚ) : OneDimMetapr where
  aPrioriExpec := fun b => D_diGmm sf (K * b) b
  Metapr := fun b => sf.triGmm b - K * sf.triGmm (K * b)
  Metapr_jac := fun b => sf.quadriGmm b - K ^ 2 * sf.quadriGmm (K * b)
  Metapr_hess := fun b => sf.quintiGmm b - K ^ 3 * sf.quintiGmm (K * b)

-- `class _two_dim_metapr` configuration validation (`__init__`), in both the
-- catede and the kamapack version.  The `scaling` keyword argument is either
-- absent (`none`), a scalar, or a non-scalar object on which `np.float64`
-- raises.  All construction failures are surfaced as Python exceptions,
-- modelled by `PyErr`; note that the `ValueError` raised for `scaling <= 0`
-- is swallowed by the bare `except:` and re-raised as `TypeError`.

inductive ScalingArg where
  | scalar (x : ℚ)
  | nonScalar
deriving DecidableEq

inductive PyErr where
  | ioError
  | typeError
  | systemError
deriving DecidableEq

/-- The keys of the `_PRIOR_CHOICE` table. -/
def PRIOR_CHOICE_keys : List String := ["uniform", "log-uniform", "scaled"]

/-- Whether `"scaling"` belongs to `_PRIOR_CHOICE[choice]["extra"]`. -/
def choiceAcceptsScaling (choice : String) : Bool :=
  choice = "log-uniform" || choice = "scaled"

/-- The `use_phi` flag of `_PRIOR_CHOICE[choice]`. -/
def usePhi (choice : String) : Bool :=
  if choice = "uniform" then true
  else if choice = "log-uniform" then true
  else if choice = "scaled" then false
  else false

/-- `Except.isOk`, spelled out. -/
def exceptOk {ε α : Type} : Except ε α → Bool
  | Except.ok _ => true
  | Except.error _ => false

/-- `_two_dim_metapr.__init__`, catede version: the scaling check runs only
when `"scaling"` is both passed and accepted by the choice; the result is the
effective `scaling` stored in `_extra` (default `1.`). -/
def twoDimInit_catede (choice : String) (scaling : Option ScalingArg) :
    Except PyErr ℚ :=
  if choice ∈ PRIOR_CHOICE_keys then
    if scaling.isSome && choiceAcceptsScaling choice then
      match scaling with
      | some (ScalingArg.scalar x) =>
          if x ≤ 0 then Except.error PyErr.typeError else Except.ok x
      | some ScalingArg.nonScalar => Except.error PyErr.typeError
      | none => Except.ok 1
    else Except.ok 1
  else Except.error PyErr.ioError

/-- `_two_dim_metapr.__init__`, kamapack version: the scaling check runs
whenever the choice accepts `"scaling"`, so an omitted `scaling` hits
`kwargs["scaling"]` (a `KeyError` swallowed by the bare `except:` and
re-raised as `TypeError`). -/
def twoDimInit_kamapack (choice : String) (scaling : Option ScalingArg) :
    Except PyErr ℚ :=
  if choice ∈ PRIOR_CHOICE_keys then
    if choiceAcceptsScaling choice then
      match scaling with
      | none => Except.error PyErr.typeError
      | some ScalingArg.nonScalar => Except.error PyErr.typeError
      | some (ScalingArg.scalar x) =>
          if x ≤ 0 then Except.error PyErr.typeError else Except.ok x
    else Except.ok 1
  else Except.error PyErr.ioError

/-- `DirHelldiv.__init__` (catede): runs the base `_two_dim_metapr.__init__`
first and, when that succeeds, unconditionally raises
`SystemError("this object needs to be coded.")`. -/
def DirHelldiv_init (choice : String) (scaling : Option ScalingArg) :
    Except PyErr Unit :=
  match twoDimInit_catede choice scaling with
  | Except.error e => Except.error e
  | Except.ok _ => Except.error PyErr.systemError

-- `class DirKLdiv` metaprior evaluation (scalar case: the `a`, `b` arrays of
-- the source have a single entry, so boolean-mask assignments become `if`s).

/-- `DirKLdiv`'s derived field `D = class_B.aPrioriExpec() - class_A.aPrioriExpec()`
with `class_A = DirEntr(a, K)` and `class_B = DirCrossEntr(b, K)`. -/
def KL_D (sf : NumLib) (K a b : ℚ) : ℚ :=
  (DirCrossEntr sf K).aPrioriExpec b - (DirEntr sf K).aPrioriExpec a

/-- `DirKLdiv.marginaliz_phi`: all-ones, divided by `D` where `D < log(K)`
and by `log(K)` elsewhere when `use_phi` holds. -/
def marginaliz_phi (sf : NumLib) (K D : ℚ) (use_phi : Bool) : ℚ :=
  if use_phi then (if D < sf.log K then 1 / D else 1 / sf.log K) else 1

/-- `DirKLdiv.log_marginaliz_phi`. -/
def log_marginaliz_phi (sf : NumLib) (K D : ℚ) (use_phi : Bool) : ℚ :=
  if use_phi then (if D < sf.log K then -sf.log D else -sf.log (sf.log K)) else 0

/-- `_two_dim_metapr.divPrior`: applies the chosen shape to `output`
(`A_expec` is `class_A.aPrioriExpec()`, used by the `"scaled"` shape). -/
def divPrior (sf : NumLib) (choice : String) (scaling K D A_expec output : ℚ) : ℚ :=
  if choice = "scaled" then output * sf.exp (-scaling * (D / A_expec))
  else if choice = "uniform" then
    (if CUTOFFRATIO * sf.log K ≤ D then NUMERICAL_ZERO else output)
  else if choice = "log-uniform" then output * sf.npPower D (-scaling)
  else output

/-- `_two_dim_metapr.log_divPrior`. -/
def log_divPrior (sf : NumLib) (choice : String) (scaling K D A_expec output : ℚ) : ℚ :=
  if choice = "scaled" then output + -scaling * (D / A_expec)
  else if choice = "uniform" then
    (if CUTOFFRATIO * sf.log K ≤ D then -NUMERICAL_INFTY else output)
  else if choice = "log-uniform" then output + -scaling * sf.log D
  else output

/-- `_two_dim_metapr.Metapr` for `DirKLdiv`, catede version:
`marginaliz_phi`, then `divPrior`, then `*= class_A.Metapr() * class_B.Metapr()`. -/
def DirKLdiv_Metapr_catede (sf : NumLib) (K : ℚ) (choice : String)
    (scaling a b : ℚ) : ℚ :=
  divPrior sf choice scaling K (KL_D sf K a b) ((DirEntr sf K).aPrioriExpec a)
      (marginaliz_phi sf K (KL_D sf K a b) (usePhi choice))
    * (DirEntr sf K).Metapr a * (DirCrossEntr sf K).Metapr b

/-- `_two_dim_metapr.Metapr` for `DirKLdiv`, kamapack version: the component
metapriors' `Metapr` factors are not folded in. -/
def DirKLdiv_Metapr_kamapack (sf : NumLib) (K : ℚ) (choice : String)
    (scaling a b : ℚ) : ℚ :=
  divPrior sf choice scaling K (KL_D sf K a b) ((DirEntr sf K).aPrioriExpec a)
    (marginaliz_phi sf K (KL_D sf K a b) (usePhi choice))

/-- `_two_dim_metapr.logMetapr` for `DirKLdiv` (identical in both files):
`log_marginaliz_phi`, then `log_divPrior`, then
`+= class_A.logMetapr() + class_B.logMetapr()`. -/
def DirKLdiv_logMetapr (sf : NumLib) (K : ℚ) (choice : String)
    (scaling a b : ℚ) : ℚ :=
  log_divPrior sf choice scaling K (KL_D sf K a b) ((DirEntr sf K).aPrioriExpec a)
      (log_marginaliz_phi sf K (KL_D sf K a b) (usePhi choice))
    + logMetapr sf (DirEntr sf K) a + logMetapr sf (DirCrossEntr sf K) b

-- `myMinimizer`: the `scipy.optimize.minimize` call is the external
-- optimizer; its result vector `results.x` is the input of the model.  The
-- wrapper returns `results.x` unconditionally and emits a boundary-saturation
-- warning based on `np.isclose(x, BOUND_DIR, atol=TOL)` (numpy's default
-- relative tolerance `rtol = 1e-05` is left in place).

/-- `np.isclose(a, b, atol=TOL)`: `|a - b| <= atol + rtol * |b|` with
`rtol` at numpy's default. -/
def np_isclose_tol (a b : ℚ) : Bool :=
  |a - b| ≤ TOL + NP_RTOL * |b|

/-- The parameter vector `myMinimizer` returns: `results.x`, unconditionally. -/
def myMinimizer_x (results_x : List ℚ) : List ℚ := results_x

/-- Whether `myMinimizer` emits the boundary-saturation warning. -/
def myMinimizer_warns (results_x : List ℚ) : Bool :=
  results_x.any (fun x => np_isclose_tol x BOUND_lo || np_isclose_tol x BOUND_hi)

-- Posterior-width helpers.

/-- `np.round`, which rounds halves to the nearest even integer. -/
def roundHalfEven (q : ℚ) : ℤ :=
  if q - ⌊q⌋ < 1/2 then ⌊q⌋
  else if 1/2 < q - ⌊q⌋ then ⌊q⌋ + 1
  else if ⌊q⌋ % 2 = 0 then ⌊q⌋ else ⌊q⌋ + 1

/-- `empirical_n_bins(size, categories)`:
`min(int(max(1, np.round(10 * (categories / size) ** 2))), 200)`. -/
def empirical_n_bins (size categories : ℕ) : ℕ :=
  min (max 1 (roundHalfEven (10 * ((categories : ℚ) / (size : ℚ)) ^ 2))).toNat 200

/-- `np.linspace(start, stop, num)` (with endpoint, numpy's default). -/
def linspace (start stop : ℚ) : ℕ → List ℚ
  | 0 => []
  | 1 => [start]
  | n + 2 => (List.range (n + 2)).map
      (fun (i : ℕ) => start + (stop - start) * (i : ℚ) / ((n : ℚ) + 1))

/-- `np.logspace(start, stop, num)` = `10 ** np.linspace(start, stop, num)`. -/
def np_logspace (sf : NumLib) (start stop : ℚ) (num : ℕ) : List ℚ :=
  (linspace start stop num).map sf.pow10

/-- `centered_logspaced_binning(loc, std, n_bins)`: append the first
logspace (with its last point dropped, `[:-1]`) to the second. -/
def centered_logspaced_binning (sf : NumLib) (loc std : ℚ) (n_bins : ℕ) : List ℚ :=
  (np_logspace sf (min BOUND_lo (sf.log10 (loc - N_SIGMA * std))) (sf.log10 loc)
      (n_bins / 2)).dropLast
    ++ np_logspace sf (sf.log10 loc) (sf.log10 (loc + N_SIGMA * std)) (n_bins / 2 + 1)

/-!  Concrete instantiations of the external numerical library, used to
evaluate the model at specific inputs. -/

/-- All external primitives instantiated with simple concrete functions. -/
def sfId : NumLib :=
  { LogGmm := id, diGmm := id, triGmm := id, quadriGmm := id, quintiGmm := id
    log := id, exp := id, npPower := fun x _ => x, log10 := id, pow10 := id }

/-- A concrete sample: `K = 2`, `N = 3`, counts `1` and `2` once each. -/
def cW : CompactCounts := { K := 2, N := 3, nn := [1, 2], ff := [1, 1] }

/-- `ffsum` contracts `ff` with the image of `nn`, index by index. -/
theorem ffsum_eq_sum (f : ℚ → ℚ) :
    ∀ (ns fs : List ℚ), ns.length = fs.length →
      ffsum f ns fs = ∑ k ∈ Finset.range ns.length, fs.getD k 0 * f (ns.getD k 0)
  | [], [], _ => by simp [ffsum]
  | [], _ :: _, h => by simp at h
  | _ :: _, [], h => by simp at h
  | n :: ns, fr :: frs, h => by
    have ih := ffsum_eq_sum f ns frs (by simpa using h)
    simp only [ffsum, List.length_cons]
    rw [Finset.sum_range_succ']
    simp only [List.getD_cons_succ, List.getD_cons_zero]
    rw [ih]; ring

/-- C1: for every `CompactCounts` and every concentration parameter in the
bound interval, `Polya(a, counts).log()` equals
`Σ_k ff[k]·logGamma(nn[k]+a) − logGamma(N+K·a) − [K·logGamma(a) − logGamma(K·a)]`. -/
theorem polya_log_formula (sf : NumLib) (a : ℚ) (c : CompactCounts)
    (hlen : c.nn.length = c.ff.length)
    (hlo : BOUND_lo ≤ a) (hhi : a ≤ BOUND_hi) :
    Polya_log sf a c
      = (∑ k ∈ Finset.range c.nn.length, c.ff.getD k 0 * sf.LogGmm (c.nn.getD k 0 + a))
        - sf.LogGmm (c.N + c.K * a)
        - (c.K * sf.LogGmm a - sf.LogGmm (c.K * a)) := by
  unfold Polya_log BetaMultivariate_symmDir_log
  rw [ffsum_eq_sum _ _ _ (by simpa using hlen)]
  simp only [List.length_map]
  congr 1
  congr 1
  refine Finset.sum_congr rfl fun k hk => ?_
  have hk' : k < c.nn.length := Finset.mem_range.mp hk
  have hmap : (List.map (fun n => n + a) c.nn).getD k 0 = c.nn.getD k 0 + a := by
    rw [List.getD_eq_getElem _ _ (by simpa using hk'), List.getElem_map,
      List.getD_eq_getElem _ _ hk']
  rw [hmap]

/-- Witness for C1 at a concrete library, sample and parameter. -/
theorem polya_log_formula_witness :
    (cW.nn.length = cW.ff.length ∧ BOUND_lo ≤ (1 : ℚ) ∧ (1 : ℚ) ≤ BOUND_hi)
    ∧ Polya_log sfId 1 cW
      = (∑ k ∈ Finset.range cW.nn.length, cW.ff.getD k 0 * sfId.LogGmm (cW.nn.getD k 0 + 1))
        - sfId.LogGmm (cW.N + cW.K * 1)
        - (cW.K * sfId.LogGmm 1 - sfId.LogGmm (cW.K * 1)) :=
  ⟨⟨rfl, by norm_num [BOUND_lo], by norm_num [BOUND_hi]⟩,
    polya_log_formula sfId 1 cW rfl (by norm_num [BOUND_lo]) (by norm_num [BOUND_hi])⟩

/-- C3, counterexample: `log_jac()` is `K·diGmm(x) − K·diGmm(X)` and
`log_hess()` is `K·triGmm(x) − K²·triGmm(X)`, not `K·f(x) − f(X)`; at
`x = 1`, `K = 2` the claimed values differ from the computed ones. -/
theorem beta_symmdir_claim_counterexample :
    BetaMultivariate_symmDir_log_jac sfId 1 2 ≠ 2 * sfId.diGmm 1 - sfId.diGmm (2 * 1)
    ∧ BetaMultivariate_symmDir_log_hess sfId 1 2 ≠ 2 * sfId.triGmm 1 - sfId.triGmm (2 * 1) := by
  constructor
  · intro h
    simp only [BetaMultivariate_symmDir_log_jac, sfId, id] at h
    norm_num at h
  · intro h
    simp only [BetaMultivariate_symmDir_log_hess, sfId, id] at h
    norm_num at h

/-- C3, amended: the helper returns `K·logGamma(x) − logGamma(X)` from `log()`,
`K·digamma(x) − K·digamma(X)` from `log_jac()` and
`K·trigamma(x) − K²·trigamma(X)` from `log_hess()`, for `X = K·x`, `x > 0`, `K ≥ 1`. -/
theorem beta_symmdir_amended (sf : NumLib) (x X K : ℚ)
    (hx : 0 < x) (hK : 1 ≤ K) (hX : X = K * x) :
    BetaMultivariate_symmDir_log sf x K = K * sf.LogGmm x - sf.LogGmm X
    ∧ BetaMultivariate_symmDir_log_jac sf x K = K * sf.diGmm x - K * sf.diGmm X
    ∧ BetaMultivariate_symmDir_log_hess sf x K = K * sf.triGmm x - K ^ 2 * sf.triGmm X := by
  subst hX
  exact ⟨rfl, rfl, rfl⟩

/-- Witness for the amended C3 at `x = 1`, `K = 2`, `X = 2`. -/
theorem beta_symmdir_amended_witness :
    ((0 : ℚ) < 1 ∧ (1 : ℚ) ≤ 2 ∧ (2 : ℚ) = 2 * 1)
    ∧ (BetaMultivariate_symmDir_log sfId 1 2 = 2 * sfId.LogGmm 1 - sfId.LogGmm 2
       ∧ BetaMultivariate_symmDir_log_jac sfId 1 2 = 2 * sfId.diGmm 1 - 2 * sfId.diGmm 2
       ∧ BetaMultivariate_symmDir_log_hess sfId 1 2
          = 2 * sfId.triGmm 1 - 2 ^ 2 * sfId.triGmm 2) :=
  ⟨⟨by norm_num, by norm_num, by norm_num⟩,
    beta_symmdir_amended sfId 1 2 2 (by norm_num) (by norm_num) (by norm_num)⟩

/-- A choice accepting `"scaling"` is one of the valid keys. -/
theorem mem_keys_of_acceptsScaling {choice : String}
    (h : choiceAcceptsScaling choice = true) : choice ∈ PRIOR_CHOICE_keys := by
  unfold choiceAcceptsScaling at h
  rcases Bool.or_eq_true_iff.mp h with h' | h' <;>
    simp [PRIOR_CHOICE_keys, of_decide_eq_true h']

/-- C4, counterexample: in the kamapack implementation, constructing with the
choice `"log-uniform"` and `scaling` omitted raises (the `KeyError` on
`kwargs["scaling"]` is re-raised as `TypeError`) instead of succeeding with
the default `1.0`. -/
theorem twoDim_init_claim_counterexample :
    twoDimInit_kamapack "log-uniform" none = Except.error PyErr.typeError
    ∧ twoDimInit_kamapack "log-uniform" none ≠ Except.ok 1 := by
  refine ⟨rfl, fun h => ?_⟩
  exact Except.noConfusion h

/-- C4, amended: the catede constructor raises exactly when the choice is
unknown, or when a `scaling` is provided for a choice that accepts it and is
non-scalar or `≤ 0`; with `scaling` omitted it succeeds with the default
`1.0`.  The kamapack constructor additionally raises whenever the choice
accepts `scaling` and none is provided. -/
theorem twoDim_init_validation_amended (choice : String) (scaling : Option ScalingArg) :
    (exceptOk (twoDimInit_catede choice scaling) = false
      ↔ (choice ∉ PRIOR_CHOICE_keys
          ∨ (choiceAcceptsScaling choice = true
             ∧ (scaling = some ScalingArg.nonScalar
                ∨ ∃ x, scaling = some (ScalingArg.scalar x) ∧ x ≤ 0))))
    ∧ (choiceAcceptsScaling choice = true → twoDimInit_catede choice none = Except.ok 1)
    ∧ (choiceAcceptsScaling choice = true →
        twoDimInit_kamapack choice none = Except.error PyErr.typeError) := by
  refine ⟨?_, ?_, ?_⟩
  · unfold twoDimInit_catede
    by_cases hm : choice ∈ PRIOR_CHOICE_keys
    · rw [if_pos hm]
      cases scaling with
      | none => simp [exceptOk, hm]
      | some v =>
        cases v with
        | nonScalar =>
          by_cases ha : choiceAcceptsScaling choice
          · simp [exceptOk, hm, ha]
          · simp [exceptOk, hm, ha]
        | scalar x =>
          by_cases ha : choiceAcceptsScaling choice
          · by_cases hx : x ≤ 0
            · simp [exceptOk, hm, ha, hx]
            · simp [exceptOk, hm, ha, hx]
          · simp [exceptOk, hm, ha]
    · simp [exceptOk, hm]
  · intro ha
    have hm := mem_keys_of_acceptsScaling ha
    simp [twoDimInit_catede, hm]
  · intro ha
    have hm := mem_keys_of_acceptsScaling ha
    simp [twoDimInit_kamapack, hm, ha]

/-- Witness for the amended C4: `"log-uniform"` accepts `scaling`, and the
catede constructor with `scaling` omitted succeeds with the default. -/
theorem twoDim_init_validation_amended_witness :
    choiceAcceptsScaling "log-uniform" = true
    ∧ twoDimInit_catede "log-uniform" none = Except.ok 1 :=
  ⟨by decide, (twoDim_init_validation_amended "log-uniform" none).2.1 (by decide)⟩

/-- C6, counterexample: with an unknown choice, `DirHelldiv` construction
fails in the base `__init__` with the configuration error (`IOError`), not
with the not-implemented signal (`SystemError`). -/
theorem dirHelldiv_claim_counterexample :
    DirHelldiv_init "bogus" none = Except.error PyErr.ioError
    ∧ PyErr.ioError ≠ PyErr.systemError := by
  exact ⟨rfl, by decide⟩

/-- C6, amended: `DirHelldiv` construction never returns an object; whenever
the base configuration validation succeeds, it fails with the
not-implemented signal, and otherwise with the configuration error. -/
theorem dirHelldiv_always_fails_amended (choice : String) (scaling : Option ScalingArg) :
    (∀ u : Unit, DirHelldiv_init choice scaling ≠ Except.ok u)
    ∧ (exceptOk (twoDimInit_catede choice scaling) = true →
        DirHelldiv_init choice scaling = Except.error PyErr.systemError) := by
  unfold DirHelldiv_init
  cases h : twoDimInit_catede choice scaling with
  | error e => exact ⟨fun u => by simp, fun hok => by simp [exceptOk] at hok⟩
  | ok x => exact ⟨fun u => by simp, fun _ => rfl⟩

/-- Witness for the amended C6 at the valid choice `"uniform"`. -/
theorem dirHelldiv_always_fails_amended_witness :
    exceptOk (twoDimInit_catede "uniform" none) = true
    ∧ DirHelldiv_init "uniform" none = Except.error PyErr.systemError :=
  ⟨by decide, (dirHelldiv_always_fails_amended "uniform" none).2 (by decide)⟩

/-- C5, counterexample: `myMinimizer` warns at `x = 999.995`, a coordinate
further than `TOL` from both bounds (the `np.isclose` test keeps numpy's
default relative tolerance `1e-5`, so the effective tolerance at the upper
bound is about `0.01`). -/
theorem myMinimizer_warn_claim_counterexample :
    myMinimizer_warns [999995 / 1000] = true
    ∧ TOL < |999995 / 1000 - BOUND_lo| ∧ TOL < |999995 / 1000 - BOUND_hi| := by
  refine ⟨?_, ?_, ?_⟩
  · have hhi : np_isclose_tol (999995 / 1000) BOUND_hi = true := by
      simp only [np_isclose_tol, decide_eq_true_iff]
      rw [abs_of_neg (by norm_num [BOUND_hi]), abs_of_pos (by norm_num [BOUND_hi])]
      norm_num [TOL, NP_RTOL, BOUND_hi]
    simp [myMinimizer_warns, hhi]
  · rw [abs_of_pos (by norm_num [BOUND_lo])]
    norm_num [TOL, BOUND_lo]
  · rw [abs_of_neg (by norm_num [BOUND_hi]), neg_sub]
    norm_num [TOL, BOUND_hi]

/-- C5, amended: `myMinimizer` always returns the optimizer's vector
unchanged, and warns exactly when some coordinate is within
`TOL + 1e-5·|bound|` (numpy's `isclose` with its default relative tolerance)
of either bound. -/
theorem myMinimizer_returns_and_warns_iff (xs : List ℚ) :
    myMinimizer_x xs = xs
    ∧ (myMinimizer_warns xs = true
        ↔ ∃ x ∈ xs, |x - BOUND_lo| ≤ TOL + NP_RTOL * |BOUND_lo|
            ∨ |x - BOUND_hi| ≤ TOL + NP_RTOL * |BOUND_hi|) := by
  refine ⟨rfl, ?_⟩
  simp [myMinimizer_warns, List.any_eq_true, np_isclose_tol, Bool.or_eq_true,
    decide_eq_true_iff]

/-- `np.round` never rounds below the floor. -/
theorem floor_le_roundHalfEven (q : ℚ) : ⌊q⌋ ≤ roundHalfEven q := by
  unfold roundHalfEven
  split_ifs <;> omega

/-- `np.round` never rounds above the ceiling of the cell. -/
theorem roundHalfEven_le_floor_add_one (q : ℚ) : roundHalfEven q ≤ ⌊q⌋ + 1 := by
  unfold roundHalfEven
  split_ifs <;> omega

/-- `np.round` is weakly monotone. -/
theorem roundHalfEven_mono {p q : ℚ} (h : p ≤ q) :
    roundHalfEven p ≤ roundHalfEven q := by
  rcases lt_or_le ⌊p⌋ ⌊q⌋ with hf | hf
  · calc roundHalfEven p ≤ ⌊p⌋ + 1 := roundHalfEven_le_floor_add_one p
      _ ≤ ⌊q⌋ := by omega
      _ ≤ roundHalfEven q := floor_le_roundHalfEven q
  · have hfe : ⌊p⌋ = ⌊q⌋ := le_antisymm (Int.floor_le_floor h) hf
    have hr : p - (⌊p⌋ : ℚ) ≤ q - (⌊q⌋ : ℚ) := by
      rw [hfe]
      have : ((⌊q⌋ : ℤ) : ℚ) ≤ ((⌊q⌋ : ℤ) : ℚ) := le_rfl
      linarith
    unfold roundHalfEven
    split_ifs <;> first | omega | linarith

/-- C7, counterexample: the bin count grows with the ratio
`categories/size`: at ratio `1` it is `10`, at ratio `2` it is `40`. -/
theorem empirical_n_bins_claim_counterexample :
    ((1 : ℚ) / 1 ≤ (2 : ℚ) / 1)
    ∧ ¬ (empirical_n_bins 1 2 ≤ empirical_n_bins 1 1) := by
  have e1 : empirical_n_bins 1 1 = 10 := by
    norm_num [empirical_n_bins, roundHalfEven]
    rfl
  have e2 : empirical_n_bins 1 2 = 40 := by
    norm_num [empirical_n_bins, roundHalfEven]
    rfl
  refine ⟨by norm_num, ?_⟩
  rw [e1, e2]
  norm_num

/-- C7, amended: `empirical_n_bins` is monotonically non-DEcreasing in the
ratio `categories/size`, and always lies between `1` and `200`. -/
theorem empirical_n_bins_amended (s1 c1 s2 c2 : ℕ)
    (hs1 : 0 < s1) (hs2 : 0 < s2)
    (hr : (c1 : ℚ) / s1 ≤ (c2 : ℚ) / s2) :
    empirical_n_bins s1 c1 ≤ empirical_n_bins s2 c2
    ∧ 1 ≤ empirical_n_bins s1 c1 ∧ empirical_n_bins s1 c1 ≤ 200 := by
  refine ⟨?_, ?_, min_le_right _ _⟩
  · unfold empirical_n_bins
    have h0 : (0 : ℚ) ≤ (c1 : ℚ) / s1 := by positivity
    have hsq : 10 * ((c1 : ℚ) / s1) ^ 2 ≤ 10 * ((c2 : ℚ) / s2) ^ 2 := by
      have := pow_le_pow_left h0 hr 2
      linarith
    have hrd := roundHalfEven_mono hsq
    exact min_le_min (Int.toNat_le_toNat (max_le_max le_rfl hrd)) le_rfl
  · unfold empirical_n_bins
    refine le_min ?_ (by norm_num)
    have h1 : (1 : ℤ) ≤ max 1 (roundHalfEven (10 * ((c1 : ℚ) / s1) ^ 2)) :=
      le_max_left 1 _
    simpa using Int.toNat_le_toNat h1

/-- Witness for the amended C7 at sizes `1`, `1` and category counts `1`, `2`. -/
theorem empirical_n_bins_amended_witness :
    (0 < 1 ∧ (1 : ℚ) / 1 ≤ (2 : ℚ) / 1)
    ∧ (empirical_n_bins 1 1 ≤ empirical_n_bins 1 2
       ∧ 1 ≤ empirical_n_bins 1 1 ∧ empirical_n_bins 1 1 ≤ 200) :=
  ⟨⟨by norm_num, by norm_num⟩,
    empirical_n_bins_amended 1 1 1 2 (by norm_num) (by norm_num) (by norm_num)⟩

/-- `np.linspace` returns exactly `num` points. -/
theorem linspace_length (start stop : ℚ) : ∀ num : ℕ, (linspace start stop num).length = num
  | 0 => rfl
  | 1 => rfl
  | _ + 2 => by
    simp only [linspace, List.length_map, List.length_range]

/-- C10, counterexample: with `n_bins = 1` the binning has one point, not
`2·(1 // 2) = 0` points. -/
theorem centered_binning_length_counterexample :
    (centered_logspaced_binning sfId 1 1 1).length = 1
    ∧ (2 * (1 / 2) : ℕ) = 0 := by
  exact ⟨rfl, rfl⟩

/-- C10, amended: the binning has `2·(n_bins // 2)` points for every
`n_bins ≥ 2`, and a single point for `n_bins ≤ 1`. -/
theorem centered_binning_length_amended (sf : NumLib) (loc std : ℚ) (n_bins : ℕ) :
    (centered_logspaced_binning sf loc std n_bins).length
      = if n_bins ≤ 1 then 1 else 2 * (n_bins / 2) := by
  unfold centered_logspaced_binning np_logspace
  rw [List.length_append, List.length_dropLast, List.length_map, List.length_map,
    linspace_length, linspace_length]
  rcases Nat.lt_or_ge n_bins 2 with h | h
  · interval_cases n_bins <;> simp
  · have h2 : 1 ≤ n_bins / 2 := (Nat.one_le_div_iff (by norm_num)).mpr h
    rw [if_neg (by omega)]
    omega

/-- C8: for each one-dimensional metaprior variant, the inherited
log-derivative methods are exactly `log(Metapr)`, `Metapr_jac/Metapr` and
`Metapr_hess/Metapr − (logMetapr_jac)²`. -/
theorem one_dim_metapr_log_derivatives (sf : NumLib) (K a : ℚ) (v : OneDimMetapr)
    (hv : v = DirEntr sf K ∨ v = DirCrossEntr sf K ∨ v = DirSimps K ∨ v = equalDirKLdiv K)
    (hpos : 0 < v.Metapr a) :
    logMetapr sf v a = sf.log (v.Metapr a)
    ∧ logMetapr_jac v a = v.Metapr_jac a / v.Metapr a
    ∧ logMetapr_hess v a = v.Metapr_hess a / v.Metapr a - (logMetapr_jac v a) ^ 2 :=
  ⟨rfl, rfl, rfl⟩

/-- Witness for C8 at the entropy variant, `K = 2`, `a = 1`. -/
theorem one_dim_metapr_log_derivatives_witness :
    ((DirEntr sfId 2 = DirEntr sfId 2 ∨ DirEntr sfId 2 = DirCrossEntr sfId 2
        ∨ DirEntr sfId 2 = DirSimps 2 ∨ DirEntr sfId 2 = equalDirKLdiv 2)
      ∧ 0 < (DirEntr sfId 2).Metapr 1)
    ∧ (logMetapr sfId (DirEntr sfId 2) 1 = sfId.log ((DirEntr sfId 2).Metapr 1)
       ∧ logMetapr_jac (DirEntr sfId 2) 1
          = (DirEntr sfId 2).Metapr_jac 1 / (DirEntr sfId 2).Metapr 1
       ∧ logMetapr_hess (DirEntr sfId 2) 1
          = (DirEntr sfId 2).Metapr_hess 1 / (DirEntr sfId 2).Metapr 1
            - (logMetapr_jac (DirEntr sfId 2) 1) ^ 2) :=
  ⟨⟨Or.inl rfl, by norm_num [DirEntr, sfId]⟩,
    one_dim_metapr_log_derivatives sfId 2 1 (DirEntr sfId 2) (Or.inl rfl)
      (by norm_num [DirEntr, sfId])⟩

/-- A concrete library with `diGmm` and `triGmm` the identity and `np.log`
constantly `1`, giving `D = 38`, `A.Metapr = 10`, `B.Metapr = -160` at
`K = 3`, `a = 1`, `b = 20`. -/
def sfC : NumLib :=
  { LogGmm := id, diGmm := id, triGmm := id, quadriGmm := id, quintiGmm := id
    log := fun _ => 1, exp := id, npPower := fun x _ => x, log10 := id, pow10 := id }

/-- C2, counterexample: in the cutoff region the catede `Metapr()` is the
numerical-zero constant TIMES the component Metapr factors (here
`1e-14 · 10 · (-160)`), and `logMetapr()` is the numerical-negative-infinity
constant PLUS the component log terms, so neither equals the bare constant. -/
theorem uniform_clamp_claim_counterexample :
    CUTOFFRATIO * sfC.log 3 ≤ KL_D sfC 3 1 20
    ∧ DirKLdiv_Metapr_catede sfC 3 "uniform" 1 1 20 ≠ NUMERICAL_ZERO
    ∧ DirKLdiv_logMetapr sfC 3 "uniform" 1 1 20 ≠ -NUMERICAL_INFTY := by
  have hs1 : ¬(("uniform" : String) = "scaled") := by decide
  have hs2 : ("uniform" : String) = "uniform" := rfl
  refine ⟨?_, ?_, ?_⟩
  · norm_num [KL_D, DirEntr, DirCrossEntr, D_diGmm, sfC, CUTOFFRATIO]
  · norm_num [DirKLdiv_Metapr_catede, divPrior, marginaliz_phi, usePhi, KL_D,
      DirEntr, DirCrossEntr, D_diGmm, sfC, CUTOFFRATIO, NUMERICAL_ZERO, hs1, hs2]
  · norm_num [DirKLdiv_logMetapr, log_divPrior, log_marginaliz_phi, usePhi, KL_D,
      logMetapr, DirEntr, DirCrossEntr, D_diGmm, sfC, CUTOFFRATIO, NUMERICAL_INFTY, hs1, hs2]

/-- C2, amended: in the cutoff region `D ≥ CUTOFFRATIO·log K`, the divergence
prior is clamped, so the catede `Metapr()` equals
`NUMERICAL_ZERO · classA.Metapr · classB.Metapr`, the kamapack `Metapr()`
equals `NUMERICAL_ZERO` exactly, and `logMetapr()` (both files) equals
`-NUMERICAL_INFTY + classA.logMetapr + classB.logMetapr`. -/
theorem uniform_clamp_amended (sf : NumLib) (K s a b : ℚ)
    (hcut : CUTOFFRATIO * sf.log K ≤ KL_D sf K a b) :
    DirKLdiv_Metapr_catede sf K "uniform" s a b
      = NUMERICAL_ZERO * (DirEntr sf K).Metapr a * (DirCrossEntr sf K).Metapr b
    ∧ DirKLdiv_Metapr_kamapack sf K "uniform" s a b = NUMERICAL_ZERO
    ∧ DirKLdiv_logMetapr sf K "uniform" s a b
      = -NUMERICAL_INFTY + logMetapr sf (DirEntr sf K) a
          + logMetapr sf (DirCrossEntr sf K) b := by
  unfold DirKLdiv_Metapr_catede DirKLdiv_Metapr_kamapack DirKLdiv_logMetapr
    divPrior log_divPrior
  simp [hcut]

/-- Witness for the amended C2 at `sfC`, `K = 3`, `a = 1`, `b = 20`
(where `D = 38 ≥ 5·log K = 5`). -/
theorem uniform_clamp_amended_witness :
    CUTOFFRATIO * sfC.log 3 ≤ KL_D sfC 3 1 20
    ∧ (DirKLdiv_Metapr_catede sfC 3 "uniform" 1 1 20
        = NUMERICAL_ZERO * (DirEntr sfC 3).Metapr 1 * (DirCrossEntr sfC 3).Metapr 20
       ∧ DirKLdiv_Metapr_kamapack sfC 3 "uniform" 1 1 20 = NUMERICAL_ZERO
       ∧ DirKLdiv_logMetapr sfC 3 "uniform" 1 1 20
          = -NUMERICAL_INFTY + logMetapr sfC (DirEntr sfC 3) 1
              + logMetapr sfC (DirCrossEntr sfC 3) 20) :=
  ⟨by norm_num [KL_D, DirEntr, DirCrossEntr, D_diGmm, sfC, CUTOFFRATIO],
    uniform_clamp_amended sfC 3 1 1 20
      (by norm_num [KL_D, DirEntr, DirCrossEntr, D_diGmm, sfC, CUTOFFRATIO])⟩

/-- C9: in the catede `DirKLdiv` with choice `"log-uniform"`, the linear- and
log-domain outputs are consistent, `Metapr = exp(logMetapr)`, for positive
`D` and component Metapr factors, given the standard identities of the
external `exp`/`log`/`power` primitives at the values involved. -/
theorem dirKLdiv_loguniform_consistency (sf : NumLib) (K s a b : ℚ)
    (hexp : ∀ x y, sf.exp (x + y) = sf.exp x * sf.exp y)
    (hD : 0 < KL_D sf K a b)
    (hMA : 0 < (DirEntr sf K).Metapr a)
    (hMB : 0 < (DirCrossEntr sf K).Metapr b)
    (hA : sf.exp (sf.log ((DirEntr sf K).Metapr a)) = (DirEntr sf K).Metapr a)
    (hB : sf.exp (sf.log ((DirCrossEntr sf K).Metapr b)) = (DirCrossEntr sf K).Metapr b)
    (hDinv : sf.exp (-sf.log (KL_D sf K a b)) = 1 / KL_D sf K a b)
    (hKinv : sf.exp (-sf.log (sf.log K)) = 1 / sf.log K)
    (hpow : sf.npPower (KL_D sf K a b) (-s) = sf.exp (-s * sf.log (KL_D sf K a b))) :
    DirKLdiv_Metapr_catede sf K "log-uniform" s a b
      = sf.exp (DirKLdiv_logMetapr sf K "log-uniform" s a b) := by
  unfold DirKLdiv_Metapr_catede DirKLdiv_logMetapr divPrior log_divPrior
    marginaliz_phi log_marginaliz_phi usePhi logMetapr
  simp only [String.reduceEq, if_false, if_true, reduceIte]
  by_cases hlt : KL_D sf K a b < sf.log K
  · rw [if_pos hlt, if_pos hlt, hexp, hexp, hexp, hA, hB, neg_mul, hDinv, ← neg_mul, ← hpow]
  · rw [if_neg hlt, if_neg hlt, hexp, hexp, hexp, hA, hB, hKinv, ← hpow]

/-- A concrete library satisfying the exp/log identities of the consistency
theorem at the chosen point: `exp` and `log` constantly `1`, `triGmm` equal
to `0` at `4` and `1` elsewhere, so `D = 1` and both Metapr factors are `1`. -/
def sfW9 : NumLib :=
  { LogGmm := id, diGmm := id, triGmm := fun x => if x = 4 then 0 else 1
    quadriGmm := id, quintiGmm := id, log := fun _ => 1, exp := fun _ => 1
    npPower := fun _ _ => 1, log10 := id, pow10 := id }

/-- Witness for C9 at `sfW9`, `K = 2`, `scaling = 1`, `a = 1`, `b = 2`. -/
theorem dirKLdiv_loguniform_consistency_witness :
    (0 < KL_D sfW9 2 1 2
     ∧ 0 < (DirEntr sfW9 2).Metapr 1
     ∧ 0 < (DirCrossEntr sfW9 2).Metapr 2)
    ∧ DirKLdiv_Metapr_catede sfW9 2 "log-uniform" 1 1 2
        = sfW9.exp (DirKLdiv_logMetapr sfW9 2 "log-uniform" 1 1 2) := by
  have hD : 0 < KL_D sfW9 2 1 2 := by
    norm_num [KL_D, DirEntr, DirCrossEntr, D_diGmm, sfW9]
  have hMA : 0 < (DirEntr sfW9 2).Metapr 1 := by
    norm_num [DirEntr, sfW9]
  have hMB : 0 < (DirCrossEntr sfW9 2).Metapr 2 := by
    norm_num [DirCrossEntr, sfW9]
  have hexp : ∀ x y, sfW9.exp (x + y) = sfW9.exp x * sfW9.exp y := by
    intro x y
    norm_num [sfW9]
  refine ⟨⟨hD, hMA, hMB⟩,
    dirKLdiv_loguniform_consistency sfW9 2 1 1 2 hexp hD hMA hMB
      ?_ ?_ ?_ ?_ ?_⟩
  · norm_num [DirEntr, sfW9]
  · norm_num [DirCrossEntr, sfW9]
  · norm_num [KL_D, DirEntr, DirCrossEntr, D_diGmm, sfW9]
  · norm_num [sfW9]
  · norm_num [sfW9]
